import Mathlib

/-!
Shallow embedding of the A-ZGlobe multi-service platform backend core:
the service-listing REST handlers (src/routes/services.js), the auth
middleware (src/unnamed/part_000, first document: protect / authorize /
requireVerification / requireServiceProvider / optionalAuth) and the
relevant parts of the Service and User mongoose schemas
(src/unnamed/part_000 second document, src/unnamed/part_001).

Modelling conventions:
* Mongo documents are Lean structures; a collection is a `List`.
* JS numbers that only ever enter comparisons (prices, ratings) are `ℚ`;
  timestamps are `Int`; counters are `Nat`.
* Query parameters are modelled after mongoose casting: numeric query
  strings are already parsed (`Option ℚ` / `Option Int`); a missing or
  empty (falsy) string parameter is `none` / handled by `jsTruthy`.
* `$regex` with the `i` option applied to a plain pattern string is
  modelled as case-insensitive substring containment.
* jwt.verify is abstracted to an environment function
  `verify : String → Option TokenPayload`; the users collection is the
  user list of the environment.
* Fields of the Service schema never read by the claims under study
  (availability, media arrays, duration, on-site flags, counters other
  than viewCount) are omitted; the allow-list mechanics of the update
  handler are kept for every modelled field, and the `status` key is
  kept on the update payload precisely because the handler must ignore it.
* Pagination metadata (`totalPages`, `hasNextPage`, ...) involves JS
  float division by a possibly-zero limit and is not needed by any claim;
  it is not modelled.
* Mongo `.sort()` promises a sorted permutation of the matches and is
  not stable; the embedding realizes it as an insertion sort over the
  translated comparator.
-/

namespace AZGlobe

/-- JS truthiness of a string: every string except `""` is truthy. -/
def jsTruthy (s : String) : Bool := !(s == "")

/-- JS toLowerCase on the ASCII data in scope.
(Defined on the character list so that it reduces in the kernel.) -/
def lowerStr (s : String) : String := ⟨s.data.map Char.toLower⟩

/-- The `.trim()` sanitizer: strip whitespace from both ends. -/
def jsTrim (s : String) : String :=
  ⟨((s.data.dropWhile Char.isWhitespace).reverse.dropWhile
      Char.isWhitespace).reverse⟩

/-- JS startsWith. -/
def strStartsWith (s pre : String) : Bool := pre.data.isPrefixOf s.data

/-- JS split on a single separator character: components
between separators, empty components included. -/
def splitChar (sep : Char) : List Char → List (List Char)
  | [] => [[]]
  | c :: rest =>
      match splitChar sep rest with
      | [] => if c == sep then [[], []] else [[c]]
      | h :: t => if c == sep then [] :: h :: t else (c :: h) :: t

/-- The split of a string as a list of strings. -/
def jsSplit (s : String) (sep : Char) : List String :=
  (splitChar sep s.data).map (fun l => ⟨l⟩)

/-- Relevant fields of the User schema (src/unnamed/part_001). -/
structure User where
  id : String
  userType : String := "customer"
  isVerified : Bool := false
  isActive : Bool := true
  password : Option String := none
  deriving Repr, DecidableEq

/-- Decoded JWT payload: `generateAuthToken` signs `{ id, userType }`
(src/unnamed/part_001 lines 151-157); `protect` reads `decoded.id`. -/
structure TokenPayload where
  id : String
  userType : String := ""
  deriving Repr, DecidableEq

/-- Authentication environment: the jwt.verify oracle (signature/expiry
check against the process secret) and the users collection. -/
structure AuthEnv where
  verify : String → Option TokenPayload
  users : List User

/-- The parts of an incoming request the auth middleware reads. -/
structure AuthReq where
  authorizationHeader : Option String := none
  cookieToken : Option String := none
  deriving Repr, DecidableEq

/-- Token extraction shared by `protect` and `optionalAuth`
(src/unnamed/part_000 lines 6-15): if the authorization header is present
and starts with `Bearer`, take the second space-separated component and
never consult the cookie; otherwise fall back to a truthy `token` cookie. -/
def extractToken (req : AuthReq) : Option String :=
  match req.authorizationHeader with
  | some h =>
      if strStartsWith h "Bearer" then (jsSplit h ' ')[1]?
      else if req.cookieToken.any jsTruthy then req.cookieToken else none
  | none => if req.cookieToken.any jsTruthy then req.cookieToken else none

/-- Lookup modelling findById on the users collection. -/
def findUserById (users : List User) (uid : String) : Option User :=
  users.find? (fun u => u.id == uid)

/-- Modelling of select minus-password: the resolved user without its password field. -/
def stripPassword (u : User) : User := { u with password := none }

/-- Outcome of the `protect` middleware. -/
inductive AuthResult where
  | unauthorized (msg : String)
  | ok (u : User)
  deriving Repr, DecidableEq

/-- Whether the middleware called `next()` (attached an identity)
rather than answering 401. -/
def AuthResult.isOk : AuthResult → Bool
  | .ok _ => true
  | .unauthorized _ => false

/-- The `protect` middleware (src/unnamed/part_000 lines 5-56). -/
def protect (env : AuthEnv) (req : AuthReq) : AuthResult :=
  match extractToken req with
  | none => .unauthorized "Not authorized to access this route. Please login."
  | some t =>
      if !jsTruthy t then
        .unauthorized "Not authorized to access this route. Please login."
      else
        match env.verify t with
        | none => .unauthorized "Not authorized to access this route. Please login."
        | some payload =>
            match findUserById env.users payload.id with
            | none => .unauthorized "User not found. Please login again."
            | some u =>
                if !u.isActive then
                  .unauthorized "Account is deactivated. Please contact support."
                else .ok (stripPassword u)

/-- The requireServiceProvider gate (src/unnamed/part_000 lines 91-99):
`some msg` is the 403 rejection, `none` lets the request continue. -/
def requireServiceProvider (u : User) : Option String :=
  if u.userType != "service_provider" then
    some "This route is only accessible to service providers."
  else none

/-- The requireVerification gate (src/unnamed/part_000 lines 80-88). -/
def requireVerification (u : User) : Option String :=
  if !u.isVerified then
    some "Account verification required. Please verify your email address."
  else none

/-! ## Service data model (src/unnamed/part_000, second document) -/

/-- Pricing block of the Service schema. -/
structure Pricing where
  ptype : String
  amount : ℚ
  currency : String := "NOK"
  deriving Repr, DecidableEq

/-- Relevant fields of the Service schema, with the schema defaults. -/
structure Service where
  id : String
  provider : String
  title : String
  description : String
  shortDescription : String := ""
  category : String
  subcategory : String := ""
  tags : List String := []
  pricing : Pricing
  serviceAreaCities : List String
  qualityRatingAverage : ℚ := 0
  qualityRatingCount : Nat := 0
  isVerified : Bool := false
  status : String := "pending_review"
  isFeatured : Bool := false
  featuredUntil : Int := 0
  viewCount : Nat := 0
  createdAt : Int := 0
  deriving Repr, DecidableEq

/-- The incrementViewCount method (src/unnamed/part_000 lines 365-368):
bump the view counter of the in-memory document (then saved). -/
def bumpView (s : Service) : Service := { s with viewCount := s.viewCount + 1 }

/-- Lookup modelling findById on the services collection. -/
def findServiceById (db : List Service) (sid : String) : Option Service :=
  db.find? (fun s => s.id == sid)

/-- Closed category enum (validator at src/routes/services.js lines 23-28,
schema enum at src/unnamed/part_000 lines 190-202). -/
def serviceCategories : List String :=
  ["home_services", "automotive", "healthcare", "education", "technology",
   "beauty_wellness", "professional_services", "entertainment", "maintenance",
   "consulting", "other"]

/-- Closed pricing-type enum (src/routes/services.js lines 29-31). -/
def pricingTypes : List String := ["fixed", "hourly", "per_unit", "negotiable"]

/-- Category descriptor returned by the static categories handler. -/
structure CategoryDescriptor where
  id : String
  name : String
  icon : String
  deriving Repr, DecidableEq

/-- The static list built by the `GET /categories` handler
(src/routes/services.js lines 386-398); no storage access. -/
def categoriesHandler : List CategoryDescriptor :=
  [ { id := "home_services", name := "Home Services", icon := "🏠" },
    { id := "automotive", name := "Automotive", icon := "🚗" },
    { id := "healthcare", name := "Healthcare", icon := "🏥" },
    { id := "education", name := "Education", icon := "📚" },
    { id := "technology", name := "Technology", icon := "💻" },
    { id := "beauty_wellness", name := "Beauty & Wellness", icon := "💄" },
    { id := "professional_services", name := "Professional Services", icon := "💼" },
    { id := "entertainment", name := "Entertainment", icon := "🎭" },
    { id := "maintenance", name := "Maintenance", icon := "🔧" },
    { id := "consulting", name := "Consulting", icon := "📋" },
    { id := "other", name := "Other", icon := "✨" } ]

/-- Uniform response shape for the service routes: 401, 403, 400, 404 or
the 2xx payload. -/
inductive RouteResponse (α : Type) where
  | unauthorized (msg : String)
  | forbidden (msg : String)
  | validationError (errs : List String)
  | notFound (msg : String)
  | ok (a : α)
  deriving Repr, DecidableEq

/-! ## POST / — create service (src/routes/services.js lines 11-74) -/

/-- Request body of the create route. The `status` field carries any
client-supplied status; the handler builds the document with
the document from the spread body with provider and a literal
pending_review status, overriding it. -/
structure CreatePayload where
  title : String
  description : String
  category : String
  pricing : Pricing
  serviceAreaCities : List String
  status : Option String := none
  deriving Repr, DecidableEq

/-- The express-validator chain of the create route
(src/routes/services.js lines 15-37); `.trim()` sanitizes in place, so
lengths are checked on the trimmed strings. -/
def createValidationErrors (p : CreatePayload) : List String :=
  (if 5 ≤ (jsTrim p.title).length ∧ (jsTrim p.title).length ≤ 100 then []
   else ["Service title must be between 5 and 100 characters"]) ++
  (if 20 ≤ (jsTrim p.description).length ∧ (jsTrim p.description).length ≤ 1000 then []
   else ["Service description must be between 20 and 1000 characters"]) ++
  (if p.category ∈ serviceCategories then [] else ["Invalid service category"]) ++
  (if p.pricing.ptype ∈ pricingTypes then [] else ["Invalid pricing type"]) ++
  (if 0 ≤ p.pricing.amount then [] else ["Price must be a positive number"]) ++
  (if 1 ≤ p.serviceAreaCities.length then []
   else ["At least one service area city is required"])

/-- The document persisted by the create handler
(src/routes/services.js lines 49-56): the sanitized body fields, the
caller as provider, status forced to pending_review, schema defaults for
the rest. -/
def buildService (newId : String) (providerId : String) (now : Int)
    (p : CreatePayload) : Service :=
  { id := newId
    provider := providerId
    title := jsTrim p.title
    description := jsTrim p.description
    category := p.category
    pricing := p.pricing
    serviceAreaCities := p.serviceAreaCities
    status := "pending_review"
    createdAt := now }

/-- The create handler after the auth gates: 400 on validator errors,
otherwise persist the new document. -/
def createHandler (user : User) (db : List Service) (newId : String)
    (now : Int) (p : CreatePayload) : RouteResponse Service × List Service :=
  if createValidationErrors p ≠ [] then
    (.validationError (createValidationErrors p), db)
  else
    let svc := buildService newId user.id now p
    (.ok svc, db ++ [svc])

/-- The full create route: protect, requireServiceProvider,
requireVerification, then the handler. -/
def createRoute (env : AuthEnv) (req : AuthReq) (db : List Service)
    (newId : String) (now : Int) (p : CreatePayload) :
    RouteResponse Service × List Service :=
  match protect env req with
  | .unauthorized m => (.unauthorized m, db)
  | .ok u =>
      match requireServiceProvider u with
      | some m => (.forbidden m, db)
      | none =>
          match requireVerification u with
          | some m => (.forbidden m, db)
          | none => createHandler u db newId now p

/-! ## GET / — list services (src/routes/services.js lines 79-184) -/

/-- Query parameters of the list route, after mongoose casting of the
numeric strings. `none` is an absent (or empty, hence falsy) parameter. -/
structure ListParams where
  category : Option String := none
  city : Option String := none
  minPrice : Option ℚ := none
  maxPrice : Option ℚ := none
  rating : Option ℚ := none
  page : Option Int := none
  limit : Option Int := none
  sort : Option String := none
  deriving Repr, DecidableEq

/-- A string query parameter survives the `if (param)` truthiness check
exactly when it is present and nonempty. -/
def presentStr (o : Option String) : Option String :=
  match o with
  | some s => if jsTruthy s then some s else none
  | none => none

/-- The mongo filter object built by the handler
(src/routes/services.js lines 103-112); the base clauses
(status active, isVerified true) are unconditional. -/
structure ListFilter where
  category : Option String
  city : Option String
  minPrice : Option ℚ
  maxPrice : Option ℚ
  minRating : Option ℚ
  deriving Repr, DecidableEq

/-- Filter construction: each optional clause is added when the raw
parameter is truthy, with its value passed through unchanged. -/
def buildFilter (p : ListParams) : ListFilter :=
  { category := presentStr p.category
    city := presentStr p.city
    minPrice := p.minPrice
    maxPrice := p.maxPrice
    minRating := p.rating }

/-- Substring test on character lists (pattern, haystack). -/
def listContainsSub (pat : List Char) : List Char → Bool
  | [] => pat.isEmpty
  | c :: rest => pat.isPrefixOf (c :: rest) || listContainsSub pat rest

/-- Mongo regex match with the ignore-case option on a plain pattern
string: case-insensitive substring containment. -/
def cityMatches (pat : String) (city : String) : Bool :=
  listContainsSub (lowerStr pat).data (lowerStr city).data

/-- Whether a stored document matches the built filter; an array field
matches a clause when some element does. -/
def matchesFilter (f : ListFilter) (s : Service) : Bool :=
  s.status == "active" && s.isVerified
    && (match f.category with | none => true | some c => s.category == c)
    && (match f.city with
        | none => true
        | some c => s.serviceAreaCities.any (cityMatches c))
    && (match f.minPrice with
        | none => true
        | some m => decide (m ≤ s.pricing.amount))
    && (match f.maxPrice with
        | none => true
        | some m => decide (s.pricing.amount ≤ m))
    && (match f.minRating with
        | none => true
        | some r => decide (r ≤ s.qualityRatingAverage))

/-- The five recognized sort keys (src/routes/services.js line 88). -/
def sortKeys : List String :=
  ["price_asc", "price_desc", "rating_desc", "newest", "oldest"]

/-- The sort object of the switch (src/routes/services.js lines 115-131),
as a boolean comparison; every unrecognized key (including the default
`newest`) falls through to creation time descending. -/
def sortLe (sort : String) (a b : Service) : Bool :=
  match sort with
  | "price_asc" => decide (a.pricing.amount ≤ b.pricing.amount)
  | "price_desc" => decide (b.pricing.amount ≤ a.pricing.amount)
  | "rating_desc" => decide (b.qualityRatingAverage ≤ a.qualityRatingAverage)
  | "oldest" => decide (a.createdAt ≤ b.createdAt)
  | _ => decide (b.createdAt ≤ a.createdAt)

/-- `.sort({ featuredUntil: -1, ...sortObj })`: feature-expiry
descending, ties broken by the requested sort. -/
def featuredLe (sort : String) (a b : Service) : Bool :=
  if a.featuredUntil == b.featuredUntil then sortLe sort a b
  else decide (b.featuredUntil ≤ a.featuredUntil)

/-- Result of the list handler: the featured block prepended to the
separately paginated regular block, both with their view counters
bumped by the fire-and-forget `incrementViewCount` loop, plus the
non-featured match count used for the pagination metadata. -/
structure ListResult where
  featured : List Service
  regular : List Service
  totalRegular : Nat
  deriving Repr, DecidableEq

/-- The services array of the response, featured block first
(src/routes/services.js line 154). -/
def ListResult.services (r : ListResult) : List Service :=
  r.featured ++ r.regular

/-- The list handler (src/routes/services.js lines 89-175): defaults
page 1, limit 12, sort newest; featured matches are fetched first,
sorted by feature expiry then the requested sort and bounded by the
limit; non-featured matches are offset-paginated with the same limit. -/
def listHandler (db : List Service) (p : ListParams) : ListResult :=
  let page := p.page.getD 1
  let limit := p.limit.getD 12
  let sort := p.sort.getD "newest"
  let f := buildFilter p
  let featured :=
    (((db.filter (fun s => matchesFilter f s && s.isFeatured)).insertionSort
        (fun a b => featuredLe sort a b = true)).take limit.toNat).map bumpView
  let regularAll :=
    (db.filter (fun s => matchesFilter f s && !s.isFeatured)).insertionSort
      (fun a b => sortLe sort a b = true)
  let skip := ((page - 1) * limit).toNat
  { featured := featured
    regular := ((regularAll.drop skip).take limit.toNat).map bumpView
    totalRegular := (db.filter (fun s => matchesFilter f s && !s.isFeatured)).length }

/-- The query validators declared on the list route
(src/routes/services.js lines 81-88). The handler never calls
`validationResult` on this route, so this list is computed and then
ignored. `isString` on already-string parameters cannot fail and
contributes nothing. -/
def listQueryValidationErrors (p : ListParams) : List String :=
  (match p.minPrice with
   | none => [] | some m => if 0 ≤ m then [] else ["minPrice"]) ++
  (match p.maxPrice with
   | none => [] | some m => if 0 ≤ m then [] else ["maxPrice"]) ++
  (match p.rating with
   | none => [] | some r => if 0 ≤ r ∧ r ≤ 5 then [] else ["rating"]) ++
  (match p.page with
   | none => [] | some n => if 1 ≤ n then [] else ["page"]) ++
  (match p.limit with
   | none => [] | some n => if 1 ≤ n ∧ n ≤ 50 then [] else ["limit"]) ++
  (match p.sort with
   | none => [] | some s => if s ∈ sortKeys then [] else ["sort"])

/-- Responses the list route can produce for a well-formed query: it has
no 400 branch, because the handler never consults the declared
validators; it always proceeds to the query. -/
inductive ListResponse where
  | validationError (errs : List String)
  | ok (r : ListResult)
  deriving Repr, DecidableEq

/-- The full list route (optionalAuth attaches an identity that the
handler never reads). -/
def listRoute (db : List Service) (p : ListParams) : ListResponse :=
  .ok (listHandler db p)

/-! ## GET /:id — get service by id (src/routes/services.js lines 189-224) -/

/-- The get-by-id handler: 404 when the id does not resolve, 404 when the
stored status is not active, otherwise increment the view counter
synchronously (the returned document carries the bumped counter) and
return the document. -/
def getByIdHandler (db : List Service) (sid : String) :
    RouteResponse Service × List Service :=
  match findServiceById db sid with
  | none => (.notFound "Service not found", db)
  | some svc =>
      if svc.status != "active" then (.notFound "Service not available", db)
      else
        let svc2 := bumpView svc
        (.ok svc2, db.map (fun t => if t.id == svc.id then svc2 else t))

/-- The full get-by-id route: `optionalAuth` resolves an identity that
the handler never consults. -/
def getByIdRoute (_ident : Option User) (db : List Service) (sid : String) :
    RouteResponse Service × List Service :=
  getByIdHandler db sid

/-! ## PUT /:id — update service (src/routes/services.js lines 229-314) -/

/-- Request body of the update route. Only the keys in the handler
allow-list can reach the document; `status` is in the body model exactly
because the handler must drop it. Allow-listed keys whose fields are not
in the Service embedding (availability, media, duration, flags) are
omitted. -/
structure UpdatePayload where
  title : Option String := none
  description : Option String := none
  shortDescription : Option String := none
  subcategory : Option String := none
  tags : Option (List String) := none
  pricing : Option Pricing := none
  serviceAreaCities : Option (List String) := none
  status : Option String := none
  deriving Repr, DecidableEq

/-- Validator of the optional title on the update route: trim, then
length between 5 and 100. -/
def updateTitleError (o : Option String) : List String :=
  match o with
  | none => []
  | some t =>
      if 5 ≤ (jsTrim t).length ∧ (jsTrim t).length ≤ 100 then []
      else ["Service title must be between 5 and 100 characters"]

/-- Validator of the optional description on the update route: trim,
then length between 20 and 1000. -/
def updateDescriptionError (o : Option String) : List String :=
  match o with
  | none => []
  | some d =>
      if 20 ≤ (jsTrim d).length ∧ (jsTrim d).length ≤ 1000 then []
      else ["Service description must be between 20 and 1000 characters"]

/-- Validator of the optional pricing amount on the update route:
nonnegative number. -/
def updatePriceError (o : Option Pricing) : List String :=
  match o with
  | none => []
  | some pr => if 0 ≤ pr.amount then [] else ["Price must be a positive number"]

/-- The express-validator chain of the update route
(src/routes/services.js lines 233-246): the same length and price
bounds as create, applied only to fields present in the payload. -/
def updateValidationErrors (u : UpdatePayload) : List String :=
  updateTitleError u.title ++ updateDescriptionError u.description ++
    updatePriceError u.pricing

/-- The filteredUpdates object applied to the stored document: only
allow-listed keys are written; `status` from the body is dropped by the
allow-list filter (src/routes/services.js lines 276-288). -/
def applyAllowedUpdates (s : Service) (u : UpdatePayload) : Service :=
  { s with
    title := (u.title.map jsTrim).getD s.title
    description := (u.description.map jsTrim).getD s.description
    shortDescription := u.shortDescription.getD s.shortDescription
    subcategory := u.subcategory.getD s.subcategory
    tags := u.tags.getD s.tags
    pricing := u.pricing.getD s.pricing
    serviceAreaCities := u.serviceAreaCities.getD s.serviceAreaCities }

/-- The significant-change test of src/routes/services.js line 291:
title, description or pricing present in the filtered updates, where the
trimmed strings are tested for JS truthiness and a present pricing
object is always truthy. -/
def significantChange (u : UpdatePayload) : Bool :=
  (u.title.map jsTrim).any jsTruthy
    || (u.description.map jsTrim).any jsTruthy
    || u.pricing.isSome

/-- The document written by `findByIdAndUpdate`: allow-listed fields,
and status forced to pending_review on a significant change. -/
def applyUpdates (s : Service) (u : UpdatePayload) : Service :=
  let s2 := applyAllowedUpdates s u
  if significantChange u then { s2 with status := "pending_review" } else s2

/-- The update handler after the auth gates: 400 on validator errors
(checked before the lookup), 404 when the id does not resolve, 403 when
the caller is not the owning provider, otherwise write the filtered
update. -/
def updateHandler (user : User) (db : List Service) (sid : String)
    (u : UpdatePayload) : RouteResponse Service × List Service :=
  if updateValidationErrors u ≠ [] then
    (.validationError (updateValidationErrors u), db)
  else
    match findServiceById db sid with
    | none => (.notFound "Service not found", db)
    | some svc =>
        if svc.provider != user.id then
          (.forbidden "Not authorized to update this service", db)
        else
          let svc2 := applyUpdates svc u
          (.ok svc2, db.map (fun t => if t.id == sid then svc2 else t))

/-- The full update route: protect, requireServiceProvider,
requireVerification, then the handler. -/
def updateRoute (env : AuthEnv) (req : AuthReq) (db : List Service)
    (sid : String) (u : UpdatePayload) : RouteResponse Service × List Service :=
  match protect env req with
  | .unauthorized m => (.unauthorized m, db)
  | .ok usr =>
      match requireServiceProvider usr with
      | some m => (.forbidden m, db)
      | none =>
          match requireVerification usr with
          | some m => (.forbidden m, db)
          | none => updateHandler usr db sid u

/-! ## DELETE /:id — delete service (src/routes/services.js lines 319-352) -/

/-- The delete handler after the auth gates: 404 when the id does not
resolve, 403 when the caller is not the owning provider, otherwise
`findByIdAndDelete` removes the document (ids are unique, so removal by
id is a filter). -/
def deleteHandler (user : User) (db : List Service) (sid : String) :
    RouteResponse Unit × List Service :=
  match findServiceById db sid with
  | none => (.notFound "Service not found", db)
  | some svc =>
      if svc.provider != user.id then
        (.forbidden "Not authorized to delete this service", db)
      else (.ok (), db.filter (fun t => !(t.id == sid)))

/-- The full delete route (src/routes/services.js line 319): protect and
requireServiceProvider only — unlike the update route, there is no
requireVerification gate. -/
def deleteRoute (env : AuthEnv) (req : AuthReq) (db : List Service)
    (sid : String) : RouteResponse Unit × List Service :=
  match protect env req with
  | .unauthorized m => (.unauthorized m, db)
  | .ok usr =>
      match requireServiceProvider usr with
      | some m => (.forbidden m, db)
      | none => deleteHandler usr db sid

/-! ## Router dispatch (registration order of src/routes/services.js) -/

/-- HTTP method of a request hitting the services router. -/
inductive Method where
  | get | post | put | delete
  deriving Repr, DecidableEq

/-- The handlers registered on the services router. -/
inductive RouteName where
  | createService
  | listServices
  | getServiceById
  | updateService
  | deleteService
  | providerServices
  | categories
  deriving Repr, DecidableEq

/-- Express route matching in registration order over the path segments
below the services mount point: the root pattern matches the empty
path, the id pattern any single segment, the provider pattern two
segments starting with `provider`, and the categories pattern the
literal single segment — registered last
(src/routes/services.js lines 11, 79, 189, 229, 319, 357, 384). -/
def dispatch (m : Method) (path : List String) : Option RouteName :=
  if m == .post && path == [] then some .createService
  else if m == .get && path == [] then some .listServices
  else if m == .get && path.length == 1 then some .getServiceById
  else if m == .put && path.length == 1 then some .updateService
  else if m == .delete && path.length == 1 then some .deleteService
  else if m == .get && path.length == 2 && path.head? == some "provider" then
    some .providerServices
  else if m == .get && path == ["categories"] then some .categories
  else none

/-! ## Concrete fixtures used by witnesses and counterexamples -/

/-- A verified, active service provider. -/
def wProvider : User :=
  { id := "u1", userType := "service_provider", isVerified := true }

/-- A second verified provider, owner of nothing in the fixture store. -/
def wOtherProvider : User :=
  { id := "u2", userType := "service_provider", isVerified := true }

/-- A provider whose account verification flag is still false. -/
def wUnverifiedProvider : User :=
  { id := "u3", userType := "service_provider", isVerified := false }

/-- Token oracle of the fixture environment. -/
def wVerify (t : String) : Option TokenPayload :=
  if t == "tok1" then some { id := "u1" }
  else if t == "tok2" then some { id := "u2" }
  else if t == "tok3" then some { id := "u3" }
  else none

/-- Fixture auth environment. -/
def wEnv : AuthEnv :=
  { verify := wVerify, users := [wProvider, wOtherProvider, wUnverifiedProvider] }

/-- Requests authenticating each fixture user via the header. -/
def wReq1 : AuthReq := { authorizationHeader := some "Bearer tok1" }

/-- Request authenticating the second fixture provider. -/
def wReq2 : AuthReq := { authorizationHeader := some "Bearer tok2" }

/-- Request authenticating the unverified fixture provider. -/
def wReq3 : AuthReq := { authorizationHeader := some "Bearer tok3" }

/-- An active, verified listing owned by `wProvider`. -/
def wActiveSvc : Service :=
  { id := "s1", provider := "u1", title := "Great cleaning service",
    description := "A thorough description of the cleaning service on offer.",
    category := "home_services",
    pricing := { ptype := "fixed", amount := 100 },
    serviceAreaCities := ["Oslo", "Bergen"],
    qualityRatingAverage := 4, isVerified := true,
    status := "active", createdAt := 10 }

/-- The same listing still pending review. -/
def wPendingSvc : Service := { wActiveSvc with id := "s2", status := "pending_review" }

/-- A featured, active, verified listing whose feature expiry (50) lies
before the reference request time (100) used in the counterexample. -/
def wFeaturedExpired : Service :=
  { wActiveSvc with id := "s3", isFeatured := true, featuredUntil := 50 }

/-- A valid create body that also tries to smuggle in `status: active`. -/
def wCreatePayload : CreatePayload :=
  { title := "  Mobile car detailing  ",
    description := "Complete interior and exterior detailing at your location.",
    category := "automotive",
    pricing := { ptype := "hourly", amount := 30 },
    serviceAreaCities := ["Oslo"],
    status := some "active" }

/-- A valid update body that edits the title and tries to set `status`. -/
def wUpdatePayload : UpdatePayload :=
  { title := some "An even better service title", status := some "active" }

/-- An active, verified listing owned by the unverified provider. -/
def wUnverifiedOwnedSvc : Service :=
  { wActiveSvc with id := "s4", provider := "u3" }

/-! ## Helper lemmas -/

/-- The middleware `protect` reads the request only through `extractToken`. -/
theorem protect_congr_of_extract (env : AuthEnv) {req₁ req₂ : AuthReq}
    (h : extractToken req₁ = extractToken req₂) :
    protect env req₁ = protect env req₂ := by
  unfold protect; rw [h]

/-- A payload that passes the update validators and carries a title,
description or pricing key triggers the significant-change test: the
validators force present strings to be nonempty after trimming, and a
present pricing object is truthy. -/
theorem significantChange_of_accepted {u : UpdatePayload}
    (hval : updateValidationErrors u = [])
    (hsig : u.title ≠ none ∨ u.description ≠ none ∨ u.pricing ≠ none) :
    significantChange u = true := by
  unfold updateValidationErrors at hval
  rw [List.append_eq_nil, List.append_eq_nil] at hval
  obtain ⟨⟨ht, hd⟩, _⟩ := hval
  unfold significantChange
  rcases hsig with h | h | h
  · rcases hu : u.title with _ | t
    · exact absurd hu h
    · rw [hu] at ht
      simp only [updateTitleError] at ht
      split at ht
      · rename_i hcond
        have hne : jsTrim t ≠ "" := by
          intro he; rw [he] at hcond; exact absurd hcond.1 (by decide)
        simp [hu, jsTruthy, hne]
      · simp at ht
  · rcases hu : u.description with _ | d
    · exact absurd hu h
    · rw [hu] at hd
      simp only [updateDescriptionError] at hd
      split at hd
      · rename_i hcond
        have hne : jsTrim d ≠ "" := by
          intro he; rw [he] at hcond; exact absurd hcond.1 (by decide)
        simp [hu, jsTruthy, hne]
      · simp at hd
  · rcases hu : u.pricing with _ | pr
    · exact absurd hu h
    · simp [hu]

/-- Unpacking a successful filter match into the individual clauses. -/
theorem matchesFilter_spec {f : ListFilter} {s : Service}
    (h : matchesFilter f s = true) :
    s.status = "active" ∧ s.isVerified = true ∧
      (∀ c, f.category = some c → s.category = c) ∧
      (∀ c, f.city = some c → s.serviceAreaCities.any (cityMatches c) = true) ∧
      (∀ m, f.minPrice = some m → m ≤ s.pricing.amount) ∧
      (∀ m, f.maxPrice = some m → s.pricing.amount ≤ m) ∧
      (∀ r, f.minRating = some r → r ≤ s.qualityRatingAverage) := by
  unfold matchesFilter at h
  simp only [Bool.and_eq_true, beq_iff_eq] at h
  obtain ⟨⟨⟨⟨⟨⟨h1, h2⟩, h3⟩, h4⟩, h5⟩, h6⟩, h7⟩ := h
  refine ⟨h1, h2, ?_, ?_, ?_, ?_, ?_⟩
  · intro c hc; rw [hc] at h3; simpa using h3
  · intro c hc; rw [hc] at h4; simpa using h4
  · intro m hm; rw [hm] at h5; simpa using h5
  · intro m hm; rw [hm] at h6; simpa using h6
  · intro r hr; rw [hr] at h7; simpa using h7

/-- Every listing in the response of the list handler is the view-bumped
copy of a stored listing that matches the built filter. -/
theorem exists_source_of_mem_services {db : List Service} {p : ListParams}
    {s : Service} (hs : s ∈ (listHandler db p).services) :
    ∃ t, t ∈ db ∧ matchesFilter (buildFilter p) t = true ∧ s = bumpView t := by
  unfold ListResult.services listHandler at hs
  simp only [List.mem_append, List.mem_map] at hs
  rcases hs with ⟨t, ht, rfl⟩ | ⟨t, ht, rfl⟩
  · have h1 : t ∈ db.filter
        (fun s => matchesFilter (buildFilter p) s && s.isFeatured) := by
      have := List.mem_of_mem_take ht
      rwa [List.mem_insertionSort] at this
    rw [List.mem_filter, Bool.and_eq_true] at h1
    exact ⟨t, h1.1, h1.2.1, rfl⟩
  · have h1 : t ∈ db.filter
        (fun s => matchesFilter (buildFilter p) s && !s.isFeatured) := by
      have := List.mem_of_mem_take ht
      have := List.mem_of_mem_drop this
      rwa [List.mem_insertionSort] at this
    rw [List.mem_filter, Bool.and_eq_true] at h1
    exact ⟨t, h1.1, h1.2.1, rfl⟩

/-- Every translated sort key is a total comparison. -/
theorem sortLe_total (sort : String) (a b : Service) :
    sortLe sort a b = true ∨ sortLe sort b a = true := by
  unfold sortLe
  split <;> simp only [decide_eq_true_eq] <;> exact le_total _ _

/-- Every translated sort key is a transitive comparison. -/
theorem sortLe_trans (sort : String) (a b c : Service)
    (hab : sortLe sort a b = true) (hbc : sortLe sort b c = true) :
    sortLe sort a c = true := by
  unfold sortLe at hab hbc ⊢
  split at hab <;>
    simp only [decide_eq_true_eq] at hab hbc ⊢ <;>
    first
    | exact le_trans hab hbc
    | exact le_trans hbc hab

/-- Characterization of the featured comparison as a lexicographic
order: feature expiry descending, ties by the requested sort. -/
theorem featuredLe_eq_true_iff (sort : String) (a b : Service) :
    featuredLe sort a b = true ↔
      (a.featuredUntil = b.featuredUntil ∧ sortLe sort a b = true) ∨
      (a.featuredUntil ≠ b.featuredUntil ∧
        b.featuredUntil ≤ a.featuredUntil) := by
  unfold featuredLe
  by_cases h : a.featuredUntil = b.featuredUntil <;> simp [h]

/-- The featured comparison is total. -/
theorem featuredLe_total (sort : String) (a b : Service) :
    featuredLe sort a b = true ∨ featuredLe sort b a = true := by
  rw [featuredLe_eq_true_iff, featuredLe_eq_true_iff]
  by_cases h : a.featuredUntil = b.featuredUntil
  · rcases sortLe_total sort a b with hs | hs
    · exact Or.inl (Or.inl ⟨h, hs⟩)
    · exact Or.inr (Or.inl ⟨h.symm, hs⟩)
  · rcases le_total a.featuredUntil b.featuredUntil with hl | hl
    · exact Or.inr (Or.inr ⟨fun e => h e.symm, hl⟩)
    · exact Or.inl (Or.inr ⟨h, hl⟩)

/-- The featured comparison is transitive. -/
theorem featuredLe_trans (sort : String) (a b c : Service)
    (hab : featuredLe sort a b = true) (hbc : featuredLe sort b c = true) :
    featuredLe sort a c = true := by
  rw [featuredLe_eq_true_iff] at hab hbc ⊢
  rcases hab with ⟨e1, s1⟩ | ⟨n1, l1⟩ <;> rcases hbc with ⟨e2, s2⟩ | ⟨n2, l2⟩
  · exact Or.inl ⟨e1.trans e2, sortLe_trans sort a b c s1 s2⟩
  · exact Or.inr ⟨by omega, by omega⟩
  · exact Or.inr ⟨by omega, by omega⟩
  · by_cases hac : a.featuredUntil = c.featuredUntil
    · exfalso; omega
    · exact Or.inr ⟨hac, by omega⟩

/-! ## Claims -/

/-- C1: every listing returned by the list operation has status active
and a true verified flag, and satisfies every supplied filter predicate:
exact category match, case-insensitive substring city match against the
service-area city list, pricing amount within the inclusive price
bounds, and rating average at least the requested minimum. -/
theorem C1_list_respects_base_and_supplied_filters
    (db : List Service) (p : ListParams) (s : Service)
    (hs : s ∈ (listHandler db p).services) :
    s.status = "active" ∧ s.isVerified = true ∧
      (∀ c, presentStr p.category = some c → s.category = c) ∧
      (∀ c, presentStr p.city = some c →
        s.serviceAreaCities.any (cityMatches c) = true) ∧
      (∀ m, p.minPrice = some m → m ≤ s.pricing.amount) ∧
      (∀ m, p.maxPrice = some m → s.pricing.amount ≤ m) ∧
      (∀ r, p.rating = some r → r ≤ s.qualityRatingAverage) := by
  obtain ⟨t, _, hmt, rfl⟩ := exists_source_of_mem_services hs
  obtain ⟨h1, h2, h3, h4, h5, h6, h7⟩ := matchesFilter_spec hmt
  exact ⟨h1, h2, h3, h4, h5, h6, h7⟩

/-- Witness for C1 at a concrete store and query. -/
theorem C1_witness :
    bumpView wActiveSvc ∈
        (listHandler [wActiveSvc, wPendingSvc]
          { city := some "berg", minPrice := some 50 }).services ∧
      ((bumpView wActiveSvc).status = "active" ∧
        (bumpView wActiveSvc).isVerified = true ∧
        (∀ c, presentStr (none : Option String) = some c →
          (bumpView wActiveSvc).category = c) ∧
        (∀ c, presentStr (some "berg") = some c →
          (bumpView wActiveSvc).serviceAreaCities.any (cityMatches c) = true) ∧
        (∀ m, (some (50 : ℚ) : Option ℚ) = some m →
          m ≤ (bumpView wActiveSvc).pricing.amount) ∧
        (∀ m, (none : Option ℚ) = some m →
          (bumpView wActiveSvc).pricing.amount ≤ m) ∧
        (∀ r, (none : Option ℚ) = some r →
          r ≤ (bumpView wActiveSvc).qualityRatingAverage)) :=
  ⟨by decide,
   C1_list_respects_base_and_supplied_filters [wActiveSvc, wPendingSvc]
     { city := some "berg", minPrice := some 50 } (bumpView wActiveSvc)
     (by decide)⟩

/-- C2: for every verified service-provider identity and every payload
passing the create validators, the create route persists a new listing
whose provider is the caller and whose status is pending_review,
regardless of any status value supplied in the payload. -/
theorem C2_create_forces_pending_review
    (env : AuthEnv) (req : AuthReq) (db : List Service) (newId : String)
    (now : Int) (p : CreatePayload) (usr : User)
    (hprot : protect env req = .ok usr)
    (hrole : usr.userType = "service_provider")
    (hver : usr.isVerified = true)
    (hval : createValidationErrors p = []) :
    createRoute env req db newId now p =
      (.ok (buildService newId usr.id now p),
        db ++ [buildService newId usr.id now p]) ∧
    (buildService newId usr.id now p).status = "pending_review" ∧
    (buildService newId usr.id now p).provider = usr.id ∧
    (∀ st, createRoute env req db newId now { p with status := st } =
      createRoute env req db newId now p) := by
  refine ⟨?_, rfl, rfl, ?_⟩
  · unfold createRoute
    rw [hprot]
    unfold requireServiceProvider requireVerification createHandler
    simp [hrole, hver, hval]
  · intro st; cases p; rfl

/-- Witness for C2 at the fixture environment and payload
(`wCreatePayload` asks for status active and does not get it). -/
theorem C2_witness :
    (protect wEnv wReq1 = .ok wProvider ∧
      wProvider.userType = "service_provider" ∧
      wProvider.isVerified = true ∧
      createValidationErrors wCreatePayload = []) ∧
    (createRoute wEnv wReq1 [] "s9" 77 wCreatePayload =
        (.ok (buildService "s9" wProvider.id 77 wCreatePayload),
          [] ++ [buildService "s9" wProvider.id 77 wCreatePayload]) ∧
      (buildService "s9" wProvider.id 77 wCreatePayload).status =
        "pending_review" ∧
      (buildService "s9" wProvider.id 77 wCreatePayload).provider =
        wProvider.id ∧
      (∀ st, createRoute wEnv wReq1 [] "s9" 77
          { wCreatePayload with status := st } =
        createRoute wEnv wReq1 [] "s9" 77 wCreatePayload)) :=
  ⟨⟨by decide, by decide, by decide, by decide⟩,
   C2_create_forces_pending_review wEnv wReq1 [] "s9" 77 wCreatePayload
     wProvider (by decide) (by decide) (by decide) (by decide)⟩

/-- C3: every accepted update whose payload carries a title, description
or pricing key stores status pending_review, whatever status the payload
asks for, and the status field of the payload is never written through:
the handler result does not depend on it. -/
theorem C3_update_forces_pending_review
    (usr : User) (db : List Service) (sid : String) (u : UpdatePayload)
    (svc : Service)
    (hval : updateValidationErrors u = [])
    (hfound : findServiceById db sid = some svc)
    (hown : svc.provider = usr.id)
    (hsig : u.title ≠ none ∨ u.description ≠ none ∨ u.pricing ≠ none) :
    updateHandler usr db sid u =
      (.ok (applyUpdates svc u),
        db.map (fun t => if t.id == sid then applyUpdates svc u else t)) ∧
    (applyUpdates svc u).status = "pending_review" ∧
    (∀ st, updateHandler usr db sid { u with status := st } =
      updateHandler usr db sid u) := by
  have hsc := significantChange_of_accepted hval hsig
  refine ⟨?_, ?_, ?_⟩
  · unfold updateHandler
    simp [hval, hfound, hown]
  · unfold applyUpdates
    rw [hsc]
    simp
  · intro st; cases u; rfl

/-- Witness for C3: the fixture update edits the title and asks for
status active; the stored status is pending_review. -/
theorem C3_witness :
    (updateValidationErrors wUpdatePayload = [] ∧
      findServiceById [wActiveSvc] "s1" = some wActiveSvc ∧
      wActiveSvc.provider = wProvider.id ∧
      (wUpdatePayload.title ≠ none ∨ wUpdatePayload.description ≠ none ∨
        wUpdatePayload.pricing ≠ none)) ∧
    (updateHandler wProvider [wActiveSvc] "s1" wUpdatePayload =
        (.ok (applyUpdates wActiveSvc wUpdatePayload),
          [wActiveSvc].map (fun t =>
            if t.id == "s1" then applyUpdates wActiveSvc wUpdatePayload
            else t)) ∧
      (applyUpdates wActiveSvc wUpdatePayload).status = "pending_review" ∧
      (∀ st, updateHandler wProvider [wActiveSvc] "s1"
          { wUpdatePayload with status := st } =
        updateHandler wProvider [wActiveSvc] "s1" wUpdatePayload)) :=
  ⟨⟨by decide, by decide, by decide, by decide⟩,
   C3_update_forces_pending_review wProvider [wActiveSvc] "s1"
     wUpdatePayload wActiveSvc (by decide) (by decide) (by decide)
     (by decide)⟩

/-- C4: get-by-id answers 404 exactly when the id does not resolve or
the stored status is not active, for every caller identity (the route
never reads the optional identity); on success it returns the listing
with its view counter incremented and persists the increment. -/
theorem C4_getById_404_iff_missing_or_not_active
    (db : List Service) (sid : String) (ident : Option User) :
    getByIdRoute ident db sid = getByIdHandler db sid ∧
    ((∃ m, (getByIdHandler db sid).1 = .notFound m) ↔
      findServiceById db sid = none ∨
        ∃ svc, findServiceById db sid = some svc ∧ svc.status ≠ "active") ∧
    (∀ svc, findServiceById db sid = some svc → svc.status = "active" →
      getByIdHandler db sid =
        (.ok (bumpView svc),
          db.map (fun t => if t.id == svc.id then bumpView svc else t))) := by
  refine ⟨rfl, ?_, ?_⟩
  · rcases hf : findServiceById db sid with _ | svc
    · simp [getByIdHandler, hf]
    · by_cases hst : svc.status = "active"
      · simp [getByIdHandler, hf, hst]
      · simp [getByIdHandler, hf, hst]
  · intro svc hf hst
    simp [getByIdHandler, hf, hst]

/-- Witness for C4: the fixture store answers 404 on the pending listing
and on a missing id, and serves the active one with a bumped counter. -/
theorem C4_witness :
    (getByIdRoute (some wProvider) [wActiveSvc, wPendingSvc] "s2" =
        getByIdHandler [wActiveSvc, wPendingSvc] "s2" ∧
      ((∃ m, (getByIdHandler [wActiveSvc, wPendingSvc] "s2").1 = .notFound m) ↔
        findServiceById [wActiveSvc, wPendingSvc] "s2" = none ∨
          ∃ svc, findServiceById [wActiveSvc, wPendingSvc] "s2" = some svc ∧
            svc.status ≠ "active") ∧
      (∀ svc, findServiceById [wActiveSvc, wPendingSvc] "s2" = some svc →
        svc.status = "active" →
        getByIdHandler [wActiveSvc, wPendingSvc] "s2" =
          (.ok (bumpView svc),
            [wActiveSvc, wPendingSvc].map (fun t =>
              if t.id == svc.id then bumpView svc else t)))) ∧
    (getByIdHandler [wActiveSvc, wPendingSvc] "s2").1 =
      .notFound "Service not available" ∧
    (getByIdHandler [wActiveSvc, wPendingSvc] "s1").1 = .ok (bumpView wActiveSvc) :=
  ⟨C4_getById_404_iff_missing_or_not_active [wActiveSvc, wPendingSvc] "s2"
      (some wProvider),
    by decide, by decide⟩

/-- C5: on an existing listing, an authenticated, verified
service-provider caller who is not the owner gets 403 (never 404) from
both the update and the delete route, and the store is unchanged: the
lookup happens before the ownership comparison. -/
theorem C5_nonowner_gets_forbidden_not_notFound
    (env : AuthEnv) (req : AuthReq) (db : List Service) (sid : String)
    (upd : UpdatePayload) (usr : User) (svc : Service)
    (hprot : protect env req = .ok usr)
    (hrole : usr.userType = "service_provider")
    (hver : usr.isVerified = true)
    (hval : updateValidationErrors upd = [])
    (hfound : findServiceById db sid = some svc)
    (hnotown : svc.provider ≠ usr.id) :
    updateRoute env req db sid upd =
      (.forbidden "Not authorized to update this service", db) ∧
    deleteRoute env req db sid =
      (.forbidden "Not authorized to delete this service", db) := by
  constructor
  · unfold updateRoute
    rw [hprot]
    unfold requireServiceProvider requireVerification updateHandler
    simp [hrole, hver, hval, hfound, hnotown]
  · unfold deleteRoute
    rw [hprot]
    unfold requireServiceProvider deleteHandler
    simp [hrole, hfound, hnotown]

/-- Witness for C5: the second fixture provider attacks the first
listing of the first provider. -/
theorem C5_witness :
    (protect wEnv wReq2 = .ok wOtherProvider ∧
      wOtherProvider.userType = "service_provider" ∧
      wOtherProvider.isVerified = true ∧
      updateValidationErrors wUpdatePayload = [] ∧
      findServiceById [wActiveSvc] "s1" = some wActiveSvc ∧
      wActiveSvc.provider ≠ wOtherProvider.id) ∧
    (updateRoute wEnv wReq2 [wActiveSvc] "s1" wUpdatePayload =
        (.forbidden "Not authorized to update this service", [wActiveSvc]) ∧
      deleteRoute wEnv wReq2 [wActiveSvc] "s1" =
        (.forbidden "Not authorized to delete this service", [wActiveSvc])) :=
  ⟨⟨by decide, by decide, by decide, by decide, by decide, by decide⟩,
   C5_nonowner_gets_forbidden_not_notFound wEnv wReq2 [wActiveSvc] "s1"
     wUpdatePayload wOtherProvider wActiveSvc (by decide) (by decide)
     (by decide) (by decide) (by decide) (by decide)⟩

/-- C6: `protect` takes the bearer token from the Authorization header
when one with a Bearer prefix is present (the cookie is then never
consulted), falls back to the token cookie otherwise, succeeds exactly
when a truthy token verifies and resolves to an existing active user,
and then attaches that user without its password field. -/
theorem C6_protect_token_and_user_resolution (env : AuthEnv) (req : AuthReq) :
    (∀ h c, req.authorizationHeader = some h →
      strStartsWith h "Bearer" = true →
      protect env { req with cookieToken := c } = protect env req) ∧
    (req.authorizationHeader = none →
      extractToken req =
        if req.cookieToken.any jsTruthy then req.cookieToken else none) ∧
    ((protect env req).isOk = true ↔
      ∃ t payload u, extractToken req = some t ∧ jsTruthy t = true ∧
        env.verify t = some payload ∧
        findUserById env.users payload.id = some u ∧ u.isActive = true) ∧
    (∀ u, protect env req = .ok u →
      u.password = none ∧
      ∃ t payload u0, extractToken req = some t ∧
        env.verify t = some payload ∧
        findUserById env.users payload.id = some u0 ∧ u = stripPassword u0) := by
  refine ⟨?_, ?_, ?_, ?_⟩
  · intro h c ha hb
    apply protect_congr_of_extract
    rcases req with ⟨ah, ck⟩
    simp only at ha
    subst ha
    simp only [extractToken, hb, if_true]
  · intro ha
    rcases req with ⟨ah, ck⟩
    simp only at ha
    subst ha
    simp only [extractToken]
  · rcases htok : extractToken req with _ | t
    · simp [protect, htok, AuthResult.isOk]
    · by_cases htr : jsTruthy t
      · rcases hv : env.verify t with _ | payload
        · simp [protect, htok, htr, hv, AuthResult.isOk]
        · rcases hf : findUserById env.users payload.id with _ | u0
          · simp [protect, htok, htr, hv, hf, AuthResult.isOk]
          · by_cases hact : u0.isActive
            · simp [protect, htok, htr, hv, hf, hact, AuthResult.isOk]
            · simp [protect, htok, htr, hv, hf, hact, AuthResult.isOk]
      · simp [protect, htok, htr, AuthResult.isOk]
  · intro u hu
    unfold protect at hu
    split at hu
    · exact absurd hu (by simp)
    · rename_i t htok
      split at hu
      · exact absurd hu (by simp)
      · split at hu
        · exact absurd hu (by simp)
        · rename_i payload hv
          split at hu
          · exact absurd hu (by simp)
          · rename_i u0 hf
            split at hu
            · exact absurd hu (by simp)
            · obtain rfl : stripPassword u0 = u := by injection hu
              exact ⟨rfl, t, payload, u0, htok, hv, hf, rfl⟩

/-- C7 (code bug evidence): `GET /categories` is dispatched to the
`/:id` route, which is registered first and matches any single segment,
so the categories handler — which does return the static eleven-entry
list — is unreachable; the id lookup for the literal string
`categories` finds nothing and answers 404 (a cast failure answering
500 in production; either way, never the category list). -/
theorem C7_categories_route_shadowed_by_id_route :
    dispatch .get ["categories"] = some .getServiceById ∧
    dispatch .get ["categories"] ≠ some .categories ∧
    (getByIdHandler [wActiveSvc, wPendingSvc] "categories").1 =
      .notFound "Service not found" ∧
    categoriesHandler.length = 11 := by
  refine ⟨by decide, by decide, by decide, by decide⟩

/-- C8 (counterexample): an unverified service provider owning a listing
is rejected by the update route (requireVerification answers 403) but
the delete route, which lacks that gate, deletes the listing — so delete
does not fail under the same conditions as update. -/
theorem C8_counterexample :
    updateRoute wEnv wReq3 [wUnverifiedOwnedSvc] "s4" wUpdatePayload =
      (.forbidden
        "Account verification required. Please verify your email address.",
        [wUnverifiedOwnedSvc]) ∧
    deleteRoute wEnv wReq3 [wUnverifiedOwnedSvc] "s4" = (.ok (), []) := by
  refine ⟨by decide, by decide⟩

/-- C8 (amended): for an authenticated service-provider caller, delete
answers 404 when the id does not resolve and 403 when the caller does
not own the listing — the same handler conditions as update — but,
unlike update, without requiring the caller to be verified; on success
the listing is permanently removed from the store. -/
theorem C8_delete_contract
    (env : AuthEnv) (req : AuthReq) (db : List Service) (sid : String)
    (usr : User)
    (hprot : protect env req = .ok usr)
    (hrole : usr.userType = "service_provider") :
    (findServiceById db sid = none →
      deleteRoute env req db sid = (.notFound "Service not found", db)) ∧
    (∀ svc, findServiceById db sid = some svc → svc.provider ≠ usr.id →
      deleteRoute env req db sid =
        (.forbidden "Not authorized to delete this service", db)) ∧
    (∀ svc, findServiceById db sid = some svc → svc.provider = usr.id →
      deleteRoute env req db sid =
        (.ok (), db.filter (fun t => !(t.id == sid)))) := by
  unfold deleteRoute
  rw [hprot]
  unfold requireServiceProvider deleteHandler
  refine ⟨?_, ?_, ?_⟩
  · intro hf
    simp [hrole, hf]
  · intro svc hf hnotown
    simp [hrole, hf, hnotown]
  · intro svc hf hown
    simp [hrole, hf, hown]

/-- Witness for the amended C8: the unverified owner deletes their
listing. -/
theorem C8_witness :
    (protect wEnv wReq3 = .ok wUnverifiedProvider ∧
      wUnverifiedProvider.userType = "service_provider") ∧
    ((findServiceById [wUnverifiedOwnedSvc] "s4" = none →
      deleteRoute wEnv wReq3 [wUnverifiedOwnedSvc] "s4" =
        (.notFound "Service not found", [wUnverifiedOwnedSvc])) ∧
    (∀ svc, findServiceById [wUnverifiedOwnedSvc] "s4" = some svc →
      svc.provider ≠ wUnverifiedProvider.id →
      deleteRoute wEnv wReq3 [wUnverifiedOwnedSvc] "s4" =
        (.forbidden "Not authorized to delete this service",
          [wUnverifiedOwnedSvc])) ∧
    (∀ svc, findServiceById [wUnverifiedOwnedSvc] "s4" = some svc →
      svc.provider = wUnverifiedProvider.id →
      deleteRoute wEnv wReq3 [wUnverifiedOwnedSvc] "s4" =
        (.ok (), [wUnverifiedOwnedSvc].filter (fun t => !(t.id == "s4"))))) :=
  ⟨⟨by decide, by decide⟩,
   C8_delete_contract wEnv wReq3 [wUnverifiedOwnedSvc] "s4"
     wUnverifiedProvider (by decide) (by decide)⟩

/-- C9 (counterexample): the featured filter is only
`isFeatured: true` — `featuredUntil` is never compared to the clock (the
handler takes no clock at all), so a featured listing whose expiry (50)
precedes the reference request time 100 is still returned in the
featured block. -/
theorem C9_counterexample :
    bumpView wFeaturedExpired ∈ (listHandler [wFeaturedExpired] {}).featured ∧
    (bumpView wFeaturedExpired).featuredUntil < 100 := by
  refine ⟨by decide, by decide⟩

/-- C9 (amended): the featured block of the list result contains only
featured listings matching the base and supplied filters (with no check
of the feature expiry), is bounded by the page limit, and is ordered by
feature expiry descending with ties broken by the requested sort key. -/
theorem C9_featured_block_contract (db : List Service) (p : ListParams) :
    (∀ s, s ∈ (listHandler db p).featured → s.isFeatured = true ∧
      matchesFilter (buildFilter p) s = true) ∧
    (listHandler db p).featured.length ≤ (p.limit.getD 12).toNat ∧
    (listHandler db p).featured.Pairwise
      (fun a b => featuredLe (p.sort.getD "newest") a b = true) := by
  refine ⟨?_, ?_, ?_⟩
  · intro s hs
    unfold listHandler at hs
    simp only [List.mem_map] at hs
    obtain ⟨t, ht, rfl⟩ := hs
    have h1 : t ∈ db.filter
        (fun s => matchesFilter (buildFilter p) s && s.isFeatured) := by
      have := List.mem_of_mem_take ht
      rwa [List.mem_insertionSort] at this
    rw [List.mem_filter, Bool.and_eq_true] at h1
    exact ⟨h1.2.2, h1.2.1⟩
  · unfold listHandler
    simp only [List.length_map]
    exact List.length_take_le _ _
  · unfold listHandler
    simp only []
    apply List.Pairwise.map
      (R := fun a b => featuredLe (p.sort.getD "newest") a b = true)
    · intro a b hab
      exact hab
    · apply List.Pairwise.sublist (List.take_sublist _ _)
      haveI : IsTotal Service
          (fun a b => featuredLe (p.sort.getD "newest") a b = true) :=
        ⟨fun a b => featuredLe_total _ a b⟩
      haveI : IsTrans Service
          (fun a b => featuredLe (p.sort.getD "newest") a b = true) :=
        ⟨fun a b c => featuredLe_trans _ a b c⟩
      exact List.sorted_insertionSort _ _

/-- C10: the list route has no 400 branch — even when the declared query
validators reject the parameters, the handler proceeds, the out-of-range
values are placed in the filter unchanged, and a sort key outside the
five recognized ones orders by creation time descending (the `newest`
default). -/
theorem C10_list_ignores_declared_validators
    (db : List Service) (p : ListParams)
    (hbad : listQueryValidationErrors p ≠ []) :
    listRoute db p = .ok (listHandler db p) ∧
    buildFilter p =
      { category := presentStr p.category, city := presentStr p.city,
        minPrice := p.minPrice, maxPrice := p.maxPrice,
        minRating := p.rating } ∧
    (∀ srt, p.sort = some srt → srt ∉ sortKeys →
      ∀ a b, sortLe srt a b = decide (b.createdAt ≤ a.createdAt)) := by
  refine ⟨rfl, rfl, ?_⟩
  intro srt hsrt hnot a b
  unfold sortLe
  split
  · exact absurd (by decide) hnot
  · exact absurd (by decide) hnot
  · exact absurd (by decide) hnot
  · exact absurd (by decide) hnot
  · rfl

/-- Witness for C10: a limit of 100 violates the declared
`isInt({min:1,max:50})` validator, yet the route answers 200 and uses
the limit as-is. -/
theorem C10_witness :
    listQueryValidationErrors { limit := some 100 } ≠ [] ∧
    (listRoute [wActiveSvc] { limit := some 100 } =
        .ok (listHandler [wActiveSvc] { limit := some 100 }) ∧
      buildFilter { limit := some 100 } =
        { category := presentStr none, city := presentStr none,
          minPrice := none, maxPrice := none, minRating := none } ∧
      (∀ srt, ({ limit := some 100 } : ListParams).sort = some srt →
        srt ∉ sortKeys →
        ∀ a b, sortLe srt a b = decide (b.createdAt ≤ a.createdAt))) :=
  ⟨by decide,
   C10_list_ignores_declared_validators [wActiveSvc] { limit := some 100 }
     (by decide)⟩

/-- Witness for C6: the fixture request resolves, the cookie is ignored
when a Bearer header is present, and absent tokens are rejected. -/
theorem C6_witness :
    (protect wEnv wReq1).isOk = true ∧
    protect wEnv { wReq1 with cookieToken := some "ignored" } =
      protect wEnv wReq1 :=
  ⟨(C6_protect_token_and_user_resolution wEnv wReq1).2.2.1.mpr
      ⟨"tok1", { id := "u1" }, wProvider, by decide, by decide, by decide,
        by decide, by decide⟩,
   (C6_protect_token_and_user_resolution wEnv wReq1).1 "Bearer tok1"
     (some "ignored") (by decide) (by decide)⟩

/-- Witness for the amended C9 at a concrete store. -/
theorem C9_witness :
    (∀ s, s ∈ (listHandler [wFeaturedExpired, wActiveSvc] {}).featured →
      s.isFeatured = true ∧ matchesFilter (buildFilter {}) s = true) ∧
    (listHandler [wFeaturedExpired, wActiveSvc] {}).featured.length ≤
      ((({} : ListParams).limit.getD 12)).toNat ∧
    (listHandler [wFeaturedExpired, wActiveSvc] {}).featured.Pairwise
      (fun a b =>
        featuredLe (({} : ListParams).sort.getD "newest") a b = true) :=
  C9_featured_block_contract [wFeaturedExpired, wActiveSvc] {}

end AZGlobe
